import Mathlib

/-!
# Verification of the chat session server (`src/server.js`)

Shallow embedding of the session store, the chat-turn pipeline, the
configuration / clear / history routes and the inactivity reaper of the
Express server, together with theorems settling the specification claims.

Conventions of the embedding:
* Timestamps (`Date` values) and JS numbers are rationals (`ℚ`), measured in
  milliseconds for timestamps.
* The in-memory `sessions` `Map` is an association list in insertion order;
  `Map.set` replaces in place or appends, `Map.get`/`Map.has` find the entry.
* Request-body fields that may be absent (`undefined`) are `Option`s; fields
  whose runtime type the code inspects (`typeof`) are a `JValue` sum.
* The LangChain model backend is an oracle `Backend`; `Except.error` is a
  failed backend call (`BackendError`).  `RunnableWithMessageHistory` loads
  the history via `getMessageHistory` before the model call and appends the
  user message and the reply only after a successful call (its `onEnd`
  listener does not fire on error).
* LangChain message roles: the code's `_getType()` yields `"human"` for user
  messages and `"ai"` for assistant replies; `"system"` tags the system
  instruction.
-/

/-- A role-tagged chat message (LangChain `BaseMessage`, viewed as
`_getType()` plus `content`). -/
structure Message where
  role : String
  content : String
deriving Repr, DecidableEq

/-- One session record of the `sessions` map (`server.js` lines 111–117):
`messageHistory` (its list of messages), `systemPrompt`, `temperature`,
`createdAt`, `lastActivity`. -/
structure Session where
  history : List Message
  systemPrompt : String
  temperature : ℚ
  createdAt : ℚ
  lastActivity : ℚ
deriving Repr, DecidableEq

abbrev SessionId := String

/-- The global `sessions` `Map`, as an association list in insertion order. -/
abbrev Store := List (SessionId × Session)

/-- `sessions.get(id)` (also serving `sessions.has(id)` via `Option.isSome`). -/
def storeGet? : Store → SessionId → Option Session
  | [], _ => none
  | (k, v) :: rest, id => if k = id then some v else storeGet? rest id

/-- `sessions.set(id, s)`: replace the entry in place, else append. -/
def storeSet : Store → SessionId → Session → Store
  | [], id, s => [(id, s)]
  | (k, v) :: rest, id, s =>
      if k = id then (id, s) :: rest else (k, v) :: storeSet rest id s

/-- `sessions.delete(id)`. -/
def storeDelete (st : Store) (id : SessionId) : Store :=
  st.filter (fun e => !(e.1 == id))

/-- A runtime JS value as far as the server's `typeof` checks distinguish it. -/
inductive JValue where
  | jnum (q : ℚ)
  | jstr (s : String)
  | jbool (b : Bool)
  | jnull
deriving Repr, DecidableEq

/-- `typeof v === 'string'`. -/
def isJStr : JValue → Bool
  | .jstr _ => true
  | _ => false

/-- `typeof v === 'number' && !(v < 0) && !(v > 2)` — the temperature guard
shared by the chat route (line 137) and the config route (line 287). -/
def tempOk : JValue → Bool
  | .jnum t => decide (0 ≤ t) && decide (t ≤ 2)
  | _ => false

/-- JS `String.prototype.trim`, written over the character list so it
evaluates by kernel reduction. -/
def jsTrim (s : String) : String :=
  String.mk (((s.data.dropWhile Char.isWhitespace).reverse.dropWhile
      Char.isWhitespace).reverse)

/-- The built-in default system prompt (lines 74 and 113). -/
def defaultSystemPrompt : String := "Você é um assistente útil e prestativo."

/-- The default temperature, the JS literal `0.5` (written `mkRat 1 2` so it
evaluates by kernel reduction; `defaultTemperature_eq` bridges the two). -/
def defaultTemperature : ℚ := mkRat 1 2

/-- The session literal inserted at creation (lines 111–117) and inside
`getMessageHistory` (lines 72–78): empty history, default prompt,
temperature 0.5, `createdAt = lastActivity = now`. -/
def freshSession (now : ℚ) : Session :=
  { history := []
    systemPrompt := defaultSystemPrompt
    temperature := defaultTemperature
    createdAt := now
    lastActivity := now }

/-- `POST /api/session/new` (lines 109–125): insert a fresh session under a
generated id. -/
def newSessionHandler (now : ℚ) (st : Store) (sid : SessionId) : Store :=
  storeSet st sid (freshSession now)

/-- `getMessageHistory` (lines 70–84): if the id is absent, silently insert a
fresh default session; otherwise refresh `lastActivity`.  Returns the store
after the side effect together with the message history handed to the chain. -/
def getMessageHistory (now : ℚ) (st : Store) (sid : SessionId) :
    Store × List Message :=
  match storeGet? st sid with
  | none => (storeSet st sid (freshSession now), [])
  | some s => (storeSet st sid { s with lastActivity := now }, s.history)

/-- The prompt template (lines 35–39): `[system] ++ chat_history ++ [human]`. -/
def assemble (system_prompt : String) (chat_history : List Message)
    (input : String) : List Message :=
  Message.mk "system" system_prompt :: (chat_history ++ [Message.mk "human" input])

/-- The model backend: takes the assembled messages and the temperature,
returns the reply content or fails (`BackendError`). -/
abbrev Backend := List Message → ℚ → Except Unit String

/-- `_exitHistory` of `RunnableWithMessageHistory`: after a successful model
call, append the user message and the reply to the session's history.  If the
session vanished from the map meanwhile the orphaned history object is
updated, which the map no longer observes. -/
def appendPair (st : Store) (sid : SessionId) (input reply : String) : Store :=
  match storeGet? st sid with
  | none => st
  | some s =>
      storeSet st sid
        { s with history :=
            s.history ++ [Message.mk "human" input, Message.mk "ai" reply] }

/-- `currentChainWithHistory.invoke` (lines 190–196): load the history via
`getMessageHistory` (side effect on the store), format the prompt template,
call the model, and on success append the user/assistant pair. -/
def chainInvoke (backend : Backend) (now : ℚ) (st : Store) (sid : SessionId)
    (input system_prompt : String) (temp : ℚ) : Except Unit String × Store :=
  match backend (assemble system_prompt (getMessageHistory now st sid).2 input) temp with
  | Except.error e => (Except.error e, (getMessageHistory now st sid).1)
  | Except.ok reply =>
      (Except.ok reply, appendPair (getMessageHistory now st sid).1 sid input reply)

/-- Body of `POST /api/chat` (line 130 destructuring). -/
structure ChatBody where
  sessionId : Option String
  message : Option String
  temperature : Option JValue
  systemPrompt : Option JValue
deriving Repr, DecidableEq

/-- Outcome of a chat-turn request: 400 / 404 / 200 / 500. -/
inductive ChatResult where
  | invalidArg (msg : String)
  | notFound
  | reply (content : String)
  | backendError
deriving Repr, DecidableEq

/-- Line 133: a supplied `systemPrompt` must be a string. -/
def badSystemPrompt : Option JValue → Bool
  | none => false
  | some v => !isJStr v

/-- Line 137: a supplied `temperature` must be a number in `[0, 2]`. -/
def badTemperature : Option JValue → Bool
  | none => false
  | some v => !tempOk v

/-- Line 141: `!sessionId` — absent or empty (falsy) session id. -/
def sessionIdFalsy : Option String → Bool
  | none => true
  | some s => s == ""

/-- Line 145: `!message || message.trim() === ''`. -/
def messageEmpty : Option String → Bool
  | none => true
  | some m => jsTrim m == ""

/-- Line 158: override of the system prompt supplied with a turn —
`session.systemPrompt = systemPrompt.trim() || default`. -/
def applySP : Option JValue → Session → Session
  | some (.jstr sp), s =>
      { s with systemPrompt :=
          if jsTrim sp = "" then defaultSystemPrompt else jsTrim sp }
  | _, s => s

/-- Line 163: override of the temperature supplied with a turn. -/
def applyTemp : Option JValue → Session → Session
  | some (.jnum t), s => { s with temperature := t }
  | _, s => s

def spErrMsg : String := "systemPrompt deve ser uma string"
def tempErrMsg : String := "temperature deve ser um número entre 0 e 2"
def sidErrMsg : String := "sessionId é obrigatório"
def msgErrMsg : String := "message não pode estar vazio"

/-- `POST /api/chat` (lines 128–211): validations in source order, existence
check, in-place overrides, then the chain invocation.  Whether the shared
chain (model temperature 0.5) or a custom chain (model temperature
`session.temperature`) is used, the backend receives `session.temperature`,
so the two branches of lines 170–187 collapse. -/
def chatHandler (backend : Backend) (now : ℚ) (st : Store) (body : ChatBody) :
    ChatResult × Store :=
  if badSystemPrompt body.systemPrompt then (.invalidArg spErrMsg, st)
  else if badTemperature body.temperature then (.invalidArg tempErrMsg, st)
  else if sessionIdFalsy body.sessionId then (.invalidArg sidErrMsg, st)
  else if messageEmpty body.message then (.invalidArg msgErrMsg, st)
  else
    match storeGet? st (body.sessionId.getD "") with
    | none => (.notFound, st)
    | some s =>
        match chainInvoke backend now
            (storeSet st (body.sessionId.getD "")
              (applyTemp body.temperature (applySP body.systemPrompt s)))
            (body.sessionId.getD "") (body.message.getD "")
            (applyTemp body.temperature (applySP body.systemPrompt s)).systemPrompt
            (applyTemp body.temperature (applySP body.systemPrompt s)).temperature with
        | (Except.ok reply, st') => (.reply reply, st')
        | (Except.error _, st') => (.backendError, st')

/-- Outcome of `PUT /api/session/:sessionId/config`. -/
inductive ConfigResult where
  | notFound
  | invalidArg (msg : String)
  | updated (systemPrompt : String) (temperature : ℚ)
deriving Repr, DecidableEq

/-- Second half of the config route (lines 286–298): validate and apply the
temperature on the session as it stands after the systemPrompt step, then
respond with the session's current settings. -/
def configTempStep (st : Store) (sid : SessionId) (s : Session)
    (tv : Option JValue) : ConfigResult × Store :=
  match tv with
  | none => (.updated s.systemPrompt s.temperature, st)
  | some v =>
      if tempOk v then
        match v with
        | .jnum t => (.updated s.systemPrompt t, storeSet st sid { s with temperature := t })
        | _ => (.invalidArg tempErrMsg, st)
      else (.invalidArg tempErrMsg, st)

/-- `PUT /api/session/:sessionId/config` (lines 268–304): existence check,
then the systemPrompt field is validated and stored verbatim (no trim, no
default fallback), then the temperature field is validated and stored. -/
def configHandler (st : Store) (sid : SessionId) (spv tv : Option JValue) :
    ConfigResult × Store :=
  match storeGet? st sid with
  | none => (.notFound, st)
  | some s =>
      match spv with
      | none => configTempStep st sid s tv
      | some v =>
          match v with
          | .jstr sp =>
              configTempStep (storeSet st sid { s with systemPrompt := sp }) sid
                { s with systemPrompt := sp } tv
          | _ => (.invalidArg spErrMsg, st)

/-- `DELETE /api/session/:sessionId/clear` (lines 245–265): existence check,
then `messageHistory.clear()`.  Nothing else on the session is touched. -/
def clearHandler (st : Store) (sid : SessionId) : Bool × Store :=
  match storeGet? st sid with
  | none => (false, st)
  | some s => (true, storeSet st sid { s with history := [] })

/-- The response of `GET /api/session/:sessionId/history` (lines 225–236). -/
structure HistoryView where
  messageCount : Nat
  messages : List Message
  systemPrompt : String
  temperature : ℚ
  createdAt : ℚ
  lastActivity : ℚ
deriving Repr, DecidableEq

/-- `GET /api/session/:sessionId/history` (lines 214–242): a pure read — the
route never writes the map nor the session. -/
def historyHandler (st : Store) (sid : SessionId) : Option HistoryView × Store :=
  match storeGet? st sid with
  | none => (none, st)
  | some s =>
      (some { messageCount := s.history.length
              messages := s.history
              systemPrompt := s.systemPrompt
              temperature := s.temperature
              createdAt := s.createdAt
              lastActivity := s.lastActivity }, st)

/-- `DELETE /api/session/:sessionId` (lines 307–321). -/
def deleteHandler (st : Store) (sid : SessionId) : Bool × Store :=
  match storeGet? st sid with
  | none => (false, st)
  | some _ => (true, storeDelete st sid)

/-- One pass of the expiry reaper (lines 95–104): delete every session whose
inactivity `(now - lastActivity) / 1000 / 60` exceeds 30 minutes. -/
def reapSessions (now : ℚ) (st : Store) : Store :=
  st.filter (fun e => !decide ((now - e.2.lastActivity) / 1000 / 60 > 30))

/-- The reaper period (line 104): `5 * 60 * 1000` milliseconds. -/
def reaperIntervalMs : ℕ := 5 * 60 * 1000

/-- `runTurns`: a sequence of chat turns on one session (no per-turn
overrides), returning the final store and the per-turn results. -/
def runTurns (backend : Backend) (now : ℚ) (sid : SessionId) :
    Store → List String → Store × List ChatResult
  | st, [] => (st, [])
  | st, m :: ms =>
      let out := chatHandler backend now st ⟨some sid, some m, none, none⟩
      let rest := runTurns backend now sid out.2 ms
      (rest.1, out.1 :: rest.2)

/-- The history shape produced by a run of successful turns: the user message
and the assistant reply of each turn, in turn order. -/
def pairsToHistory : List (String × String) → List Message
  | [] => []
  | (m, r) :: rest =>
      Message.mk "human" m :: Message.mk "ai" r :: pairsToHistory rest

/-- A history made of user/assistant pairs: even positions are `"human"`
messages, odd positions `"ai"` replies. -/
def alternatesUserAssistant : List Message → Bool
  | [] => true
  | [_] => false
  | u :: a :: rest =>
      u.role == "human" && a.role == "ai" && alternatesUserAssistant rest

/-- A concrete session used for the concrete-input theorems: one prior turn,
default prompt and temperature, created at time 0, last active at time 100. -/
def demoSession : Session :=
  { history := [Message.mk "human" "oi", Message.mk "ai" "tudo bem"]
    systemPrompt := defaultSystemPrompt
    temperature := defaultTemperature
    createdAt := 0
    lastActivity := 100 }

/-! ## Store lemmas -/

@[simp] theorem storeGet?_set_self (st : Store) (id : SessionId) (s : Session) :
    storeGet? (storeSet st id s) id = some s := by
  induction st with
  | nil => simp [storeSet, storeGet?]
  | cons e rest ih =>
      obtain ⟨k, v⟩ := e
      by_cases h : k = id
      · simp [storeSet, storeGet?, h]
      · simp [storeSet, storeGet?, h, ih]

theorem storeGet?_set_ne (st : Store) (id id' : SessionId) (s : Session)
    (h : id' ≠ id) : storeGet? (storeSet st id s) id' = storeGet? st id' := by
  have hne : ¬ id = id' := fun hh => h hh.symm
  induction st with
  | nil => simp [storeSet, storeGet?, hne]
  | cons e rest ih =>
      obtain ⟨k, v⟩ := e
      by_cases hk : k = id
      · have hk' : ¬ k = id' := by rw [hk]; exact hne
        simp [storeSet, storeGet?, hk, hne, hk']
      · by_cases hk' : k = id'
        · simp [storeSet, storeGet?, hk, hk', h]
        · simp [storeSet, storeGet?, hk, hk', ih]

theorem storeSet_storeSet (st : Store) (id : SessionId) (s t : Session) :
    storeSet (storeSet st id s) id t = storeSet st id t := by
  induction st with
  | nil => simp [storeSet]
  | cons e rest ih =>
      obtain ⟨k, v⟩ := e
      by_cases h : k = id
      · simp [storeSet, h]
      · simp [storeSet, h, ih]

/-! ## Frame lemmas for the per-turn overrides -/

@[simp] theorem applySP_history (v : Option JValue) (s : Session) :
    (applySP v s).history = s.history := by
  cases v with
  | none => rfl
  | some w => cases w <;> rfl

@[simp] theorem applySP_temperature (v : Option JValue) (s : Session) :
    (applySP v s).temperature = s.temperature := by
  cases v with
  | none => rfl
  | some w => cases w <;> rfl

@[simp] theorem applySP_createdAt (v : Option JValue) (s : Session) :
    (applySP v s).createdAt = s.createdAt := by
  cases v with
  | none => rfl
  | some w => cases w <;> rfl

@[simp] theorem applyTemp_history (v : Option JValue) (s : Session) :
    (applyTemp v s).history = s.history := by
  cases v with
  | none => rfl
  | some w => cases w <;> rfl

@[simp] theorem applyTemp_systemPrompt (v : Option JValue) (s : Session) :
    (applyTemp v s).systemPrompt = s.systemPrompt := by
  cases v with
  | none => rfl
  | some w => cases w <;> rfl

@[simp] theorem applyTemp_createdAt (v : Option JValue) (s : Session) :
    (applyTemp v s).createdAt = s.createdAt := by
  cases v with
  | none => rfl
  | some w => cases w <;> rfl

@[simp] theorem applySP_none (s : Session) : applySP none s = s := rfl

@[simp] theorem applyTemp_none (s : Session) : applyTemp none s = s := rfl

/-! ## Characterization of the chat pipeline -/

/-- `getMessageHistory` on an existing session only refreshes `lastActivity`
and hands back the stored history. -/
theorem getMessageHistory_present (now : ℚ) (st : Store) (sid : SessionId)
    (s : Session) (hs : storeGet? st sid = some s) :
    getMessageHistory now st sid =
      (storeSet st sid { s with lastActivity := now }, s.history) := by
  unfold getMessageHistory
  rw [hs]

/-- `getMessageHistory` on an id absent from the store silently inserts a
fresh default session and hands back its empty history. -/
theorem getMessageHistory_absent (now : ℚ) (st : Store) (sid : SessionId)
    (hs : storeGet? st sid = none) :
    getMessageHistory now st sid = (storeSet st sid (freshSession now), []) := by
  unfold getMessageHistory
  rw [hs]

/-- `chainInvoke` on a store where the session exists: the backend is called
on the assembled prompt over the session's stored history; on success the
user/assistant pair is appended, on failure only `lastActivity` moves. -/
theorem chainInvoke_present (backend : Backend) (now : ℚ) (st : Store)
    (sid : SessionId) (input sp : String) (temp : ℚ) (s : Session)
    (hs : storeGet? st sid = some s) :
    chainInvoke backend now st sid input sp temp =
      match backend (assemble sp s.history input) temp with
      | Except.error e =>
          (Except.error e, storeSet st sid { s with lastActivity := now })
      | Except.ok reply =>
          (Except.ok reply, storeSet st sid
            { s with
                lastActivity := now
                history := s.history ++
                  [Message.mk "human" input, Message.mk "ai" reply] }) := by
  unfold chainInvoke
  rw [getMessageHistory_present now st sid s hs]
  cases hbk : backend (assemble sp s.history input) temp with
  | error e => rfl
  | ok reply => simp [appendPair, storeGet?_set_self, storeSet_storeSet]

/-- `POST /api/chat` in the live case: validations passed and the session
exists.  The backend sees the post-override system prompt and temperature and
the pre-turn history; the pair is appended only on success. -/
theorem chatHandler_found (backend : Backend) (now : ℚ) (st : Store)
    (sid m : String) (tv spv : Option JValue) (s : Session)
    (hsp : badSystemPrompt spv = false) (ht : badTemperature tv = false)
    (hsid : sid ≠ "") (hm : jsTrim m ≠ "")
    (hs : storeGet? st sid = some s) :
    chatHandler backend now st ⟨some sid, some m, tv, spv⟩ =
      match backend
          (assemble (applySP spv s).systemPrompt s.history m)
          (applyTemp tv (applySP spv s)).temperature with
      | Except.ok reply => (ChatResult.reply reply,
          storeSet st sid
            { applyTemp tv (applySP spv s) with
                lastActivity := now
                history := s.history ++
                  [Message.mk "human" m, Message.mk "ai" reply] })
      | Except.error _ => (ChatResult.backendError,
          storeSet st sid
            { applyTemp tv (applySP spv s) with lastActivity := now }) := by
  have h1 : sessionIdFalsy (some sid) = false := by
    simp [sessionIdFalsy, hsid]
  have h2 : messageEmpty (some m) = false := by
    simp [messageEmpty, hm]
  unfold chatHandler
  simp only [hsp, h1, h2, ht, Bool.false_eq_true, if_false, Option.getD_some]
  rw [hs]
  dsimp only
  rw [chainInvoke_present backend now _ sid m _ _ (applyTemp tv (applySP spv s))
    (storeGet?_set_self st sid _)]
  simp only [applyTemp_history, applySP_history, applyTemp_systemPrompt]
  cases hbk : backend (assemble (applySP spv s).systemPrompt s.history m)
      (applyTemp tv (applySP spv s)).temperature <;> simp [storeSet_storeSet]

/-- Full case analysis of `POST /api/chat`: either a validation or lookup
failure with the store untouched, or the live case of `chatHandler_found`. -/
theorem chatHandler_cases (backend : Backend) (now : ℚ) (st : Store)
    (sidv mv : Option String) (tv spv : Option JValue) :
    ((chatHandler backend now st ⟨sidv, mv, tv, spv⟩).2 = st ∧
       ((∃ e, (chatHandler backend now st ⟨sidv, mv, tv, spv⟩).1 =
           ChatResult.invalidArg e) ∨
         (chatHandler backend now st ⟨sidv, mv, tv, spv⟩).1 = ChatResult.notFound)) ∨
    (∃ sid m s, sidv = some sid ∧ mv = some m ∧ sid ≠ "" ∧ jsTrim m ≠ "" ∧
       badSystemPrompt spv = false ∧ badTemperature tv = false ∧
       storeGet? st sid = some s) := by
  by_cases hsp : badSystemPrompt spv
  · exact Or.inl ⟨by simp [chatHandler, hsp], Or.inl ⟨spErrMsg, by simp [chatHandler, hsp]⟩⟩
  · by_cases ht : badTemperature tv
    · exact Or.inl ⟨by simp [chatHandler, hsp, ht],
        Or.inl ⟨tempErrMsg, by simp [chatHandler, hsp, ht]⟩⟩
    · by_cases hsv : sessionIdFalsy sidv
      · exact Or.inl ⟨by simp [chatHandler, hsp, ht, hsv],
          Or.inl ⟨sidErrMsg, by simp [chatHandler, hsp, ht, hsv]⟩⟩
      · by_cases hmv : messageEmpty mv
        · exact Or.inl ⟨by simp [chatHandler, hsp, ht, hsv, hmv],
            Or.inl ⟨msgErrMsg, by simp [chatHandler, hsp, ht, hsv, hmv]⟩⟩
        · obtain ⟨sid, rfl⟩ : ∃ sid, sidv = some sid := by
            cases sidv with
            | none => simp [sessionIdFalsy] at hsv
            | some sid => exact ⟨sid, rfl⟩
          obtain ⟨m, rfl⟩ : ∃ m, mv = some m := by
            cases mv with
            | none => simp [messageEmpty] at hmv
            | some m => exact ⟨m, rfl⟩
          have hsid : sid ≠ "" := by
            simpa [sessionIdFalsy] using hsv
          have hm : jsTrim m ≠ "" := by
            simpa [messageEmpty] using hmv
          cases hget : storeGet? st sid with
          | none =>
              refine Or.inl ⟨?_, Or.inr ?_⟩ <;>
                simp [chatHandler, hsp, ht, hsv, hmv, hget]
          | some s =>
              exact Or.inr ⟨sid, m, s, rfl, rfl, hsid, hm,
                Bool.eq_false_iff.mpr hsp, Bool.eq_false_iff.mpr ht, hget⟩

/-- If a turn request came back with a reply, the session existed and the
store now holds the post-override session with the user/assistant pair
appended and `lastActivity` refreshed. -/
theorem chatHandler_reply_inv (backend : Backend) (now : ℚ) (st : Store)
    (sid m : String) (tv spv : Option JValue) (s : Session) (c : String)
    (hs : storeGet? st sid = some s)
    (h : (chatHandler backend now st ⟨some sid, some m, tv, spv⟩).1 =
      ChatResult.reply c) :
    (chatHandler backend now st ⟨some sid, some m, tv, spv⟩).2 =
      storeSet st sid
        { applyTemp tv (applySP spv s) with
            lastActivity := now
            history := s.history ++ [Message.mk "human" m, Message.mk "ai" c] } := by
  rcases chatHandler_cases backend now st (some sid) (some m) tv spv with
    ⟨hst, hbad | hbad⟩ | ⟨sid', m', s', hsid', hm', hne, hnm, hsp, ht, hget⟩
  · obtain ⟨e, he⟩ := hbad
    rw [he] at h
    simp at h
  · rw [hbad] at h
    simp at h
  · obtain rfl : sid = sid' := Option.some.inj hsid'
    obtain rfl : m = m' := Option.some.inj hm'
    rw [hs] at hget
    obtain rfl : s = s' := Option.some.inj hget
    rw [chatHandler_found backend now st sid m tv spv s hsp ht hne hnm hs] at h ⊢
    cases hbk : backend (assemble (applySP spv s).systemPrompt s.history m)
        (applyTemp tv (applySP spv s)).temperature with
    | ok r =>
        rw [hbk] at h
        obtain rfl : r = c := by simpa using h
        rfl
    | error e =>
        rw [hbk] at h
        simp at h

/-- If a turn request came back with `BackendError`, the session existed and
the store now holds the post-override session with `lastActivity` refreshed
and the history untouched. -/
theorem chatHandler_error_inv (backend : Backend) (now : ℚ) (st : Store)
    (sid m : String) (tv spv : Option JValue) (s : Session)
    (hs : storeGet? st sid = some s)
    (h : (chatHandler backend now st ⟨some sid, some m, tv, spv⟩).1 =
      ChatResult.backendError) :
    (chatHandler backend now st ⟨some sid, some m, tv, spv⟩).2 =
      storeSet st sid { applyTemp tv (applySP spv s) with lastActivity := now } := by
  rcases chatHandler_cases backend now st (some sid) (some m) tv spv with
    ⟨hst, hbad | hbad⟩ | ⟨sid', m', s', hsid', hm', hne, hnm, hsp, ht, hget⟩
  · obtain ⟨e, he⟩ := hbad
    rw [he] at h
    simp at h
  · rw [hbad] at h
    simp at h
  · obtain rfl : sid = sid' := Option.some.inj hsid'
    obtain rfl : m = m' := Option.some.inj hm'
    rw [hs] at hget
    obtain rfl : s = s' := Option.some.inj hget
    rw [chatHandler_found backend now st sid m tv spv s hsp ht hne hnm hs] at h ⊢
    cases hbk : backend (assemble (applySP spv s).systemPrompt s.history m)
        (applyTemp tv (applySP spv s)).temperature with
    | ok r =>
        rw [hbk] at h
        simp at h
    | error e => rfl

/-! ## Equations for the config route -/

theorem configTempStep_badtemp (st : Store) (sid : SessionId) (s : Session)
    (tv : JValue) (htv : tempOk tv = false) :
    configTempStep st sid s (some tv) = (ConfigResult.invalidArg tempErrMsg, st) := by
  unfold configTempStep
  simp [htv]

/-- Config update with no systemPrompt and an invalid temperature: rejected,
store untouched. -/
theorem configHandler_none_badtemp (st : Store) (sid : SessionId) (s : Session)
    (tv : JValue) (hs : storeGet? st sid = some s) (htv : tempOk tv = false) :
    configHandler st sid none (some tv) = (ConfigResult.invalidArg tempErrMsg, st) := by
  unfold configHandler
  rw [hs]
  exact configTempStep_badtemp st sid s tv htv

/-- Config update with a string systemPrompt and an invalid temperature: the
systemPrompt mutation has already happened when the temperature is rejected. -/
theorem configHandler_jstr_badtemp (st : Store) (sid : SessionId) (s : Session)
    (sp : String) (tv : JValue) (hs : storeGet? st sid = some s)
    (htv : tempOk tv = false) :
    configHandler st sid (some (JValue.jstr sp)) (some tv) =
      (ConfigResult.invalidArg tempErrMsg,
        storeSet st sid { s with systemPrompt := sp }) := by
  unfold configHandler
  rw [hs]
  exact configTempStep_badtemp _ sid _ tv htv

/-- Config update with a string systemPrompt and no temperature: the string
is stored verbatim (no trim, no default fallback). -/
theorem configHandler_jstr_none (st : Store) (sid : SessionId) (s : Session)
    (sp : String) (hs : storeGet? st sid = some s) :
    configHandler st sid (some (JValue.jstr sp)) none =
      (ConfigResult.updated sp s.temperature,
        storeSet st sid { s with systemPrompt := sp }) := by
  unfold configHandler
  rw [hs]
  unfold configTempStep
  rfl

/-- Config update with a non-string systemPrompt: rejected before anything
is touched. -/
theorem configHandler_nonstring (st : Store) (sid : SessionId) (s : Session)
    (v : JValue) (tv : Option JValue) (hs : storeGet? st sid = some s)
    (hv : isJStr v = false) :
    configHandler st sid (some v) tv = (ConfigResult.invalidArg spErrMsg, st) := by
  unfold configHandler
  rw [hs]
  cases v <;> simp_all [isJStr]

/-! ## History-shape lemmas -/

theorem pairsToHistory_length (l : List (String × String)) :
    (pairsToHistory l).length = 2 * l.length := by
  induction l with
  | nil => rfl
  | cons p rest ih =>
      obtain ⟨m, r⟩ := p
      simp [pairsToHistory, ih]
      omega

theorem alternates_pairsToHistory (l : List (String × String)) :
    alternatesUserAssistant (pairsToHistory l) = true := by
  induction l with
  | nil => rfl
  | cons p rest ih =>
      obtain ⟨m, r⟩ := p
      simp [pairsToHistory, alternatesUserAssistant, ih]

theorem defaultSystemPrompt_ne : defaultSystemPrompt ≠ "" := by decide

/-- A per-turn systemPrompt override never leaves an empty prompt: an
empty/whitespace override falls back to the default. -/
theorem applySP_systemPrompt_ne (v : Option JValue) (s : Session)
    (h : s.systemPrompt ≠ "") : (applySP v s).systemPrompt ≠ "" := by
  cases v with
  | none => exact h
  | some w =>
      cases w with
      | jstr sp =>
          by_cases ht : jsTrim sp = ""
          · simpa [applySP, ht] using defaultSystemPrompt_ne
          · simp [applySP, ht]
      | jnum q => exact h
      | jbool b => exact h
      | jnull => exact h

/-- The JS literal `0.5` agrees with the kernel-friendly normal form used in
the embedding. -/
theorem defaultTemperature_eq : defaultTemperature = 0.5 := by
  rw [show (0.5 : ℚ) = Rat.ofScientific 5 true 1 from rfl, Rat.ofScientific_def]
  decide

-- Sanity checks on concrete inputs.
example : jsTrim "  hi  " = "hi" := by decide
example : jsTrim "   " = "" := by decide
example : tempOk (.jnum defaultTemperature) = true := by decide
example : tempOk (.jnum (mkRat 5 2)) = false := by decide
example : tempOk (.jnum (-1)) = false := by decide
example : tempOk (.jstr "hot") = false := by decide
example :
    (chatHandler (fun _ _ => Except.ok "hi") 7 [("s", freshSession 0)]
        ⟨some "s", some "olá", none, none⟩).1 = ChatResult.reply "hi" := by decide
example :
    storeGet? (chatHandler (fun _ _ => Except.ok "hi") 7 [("s", freshSession 0)]
        ⟨some "s", some "olá", none, none⟩).2 "s" =
      some { history := [Message.mk "human" "olá", Message.mk "ai" "hi"]
             systemPrompt := defaultSystemPrompt
             temperature := defaultTemperature
             createdAt := 0
             lastActivity := 7 } := by decide
example :
    (chatHandler (fun _ _ => Except.error ()) 7 [("s", freshSession 0)]
        ⟨some "s", some "olá", some (.jnum (mkRat 3 2)), none⟩).1 =
      ChatResult.backendError := by decide

/-- History accumulated over a run of turns that all produced replies: each
turn appends its user message and the backend's reply as a pair. -/
theorem runTurns_reply_history (backend : Backend) (now : ℚ) (sid : SessionId)
    (msgs : List String) :
    ∀ (st : Store) (s : Session), storeGet? st sid = some s →
      (∀ r ∈ (runTurns backend now sid st msgs).2, ∃ c, r = ChatResult.reply c) →
      ∃ replies : List String, replies.length = msgs.length ∧
        ∃ sF, storeGet? (runTurns backend now sid st msgs).1 sid = some sF ∧
          sF.history = s.history ++ pairsToHistory (msgs.zip replies) := by
  induction msgs with
  | nil =>
      intro st s hs _
      refine ⟨[], rfl, s, ?_, by simp [pairsToHistory]⟩
      simpa [runTurns] using hs
  | cons m ms ih =>
      intro st s hs hok
      have hrun2 : (runTurns backend now sid st (m :: ms)).2 =
          (chatHandler backend now st ⟨some sid, some m, none, none⟩).1 ::
            (runTurns backend now sid
              (chatHandler backend now st ⟨some sid, some m, none, none⟩).2 ms).2 := by
        simp [runTurns]
      have hrun1 : (runTurns backend now sid st (m :: ms)).1 =
          (runTurns backend now sid
            (chatHandler backend now st ⟨some sid, some m, none, none⟩).2 ms).1 := by
        simp [runTurns]
      obtain ⟨c, hc⟩ := hok _ (by rw [hrun2]; exact List.mem_cons_self _ _)
      have hst2 := chatHandler_reply_inv backend now st sid m none none s c hs hc
      simp only [applySP_none, applyTemp_none] at hst2
      have hs' : storeGet?
          (chatHandler backend now st ⟨some sid, some m, none, none⟩).2 sid =
          some { s with
                   lastActivity := now
                   history := s.history ++ [Message.mk "human" m, Message.mk "ai" c] } := by
        rw [hst2]
        exact storeGet?_set_self st sid _
      obtain ⟨replies, hlen, sF, hgF, hhist⟩ :=
        ih _ _ hs' (fun r hr => hok r (by rw [hrun2]; exact List.mem_cons_of_mem _ hr))
      refine ⟨c :: replies, by simp [hlen], sF, by rw [hrun1]; exact hgF, ?_⟩
      rw [hhist]
      simp [pairsToHistory, List.zip, List.append_assoc]

/-! ## Claim theorems -/

/-- **C6** (confirmed): a reaper pass at time `now` keeps a stored session if
and only if `now - lastActivity` is at most 30 minutes (1 800 000 ms) —
equivalently, it deletes exactly the sessions whose inactivity exceeds 30
minutes, so a session inactive 29 minutes survives — and the sweep interval
constant is 5 minutes (300 000 ms). -/
theorem C6_reaper_pass (now : ℚ) (st : Store) (sid : SessionId) (s : Session) :
    ((sid, s) ∈ reapSessions now st ↔
      ((sid, s) ∈ st ∧ now - s.lastActivity ≤ 30 * 60 * 1000)) ∧
    reaperIntervalMs = 300000 := by
  constructor
  · have hq : ∀ q : ℚ, (!decide (q / 1000 / 60 > 30)) = true ↔ q ≤ 30 * 60 * 1000 := by
      intro q
      rw [Bool.not_eq_true', decide_eq_false_iff_not, not_lt, div_div,
        div_le_iff₀ (by norm_num : (0 : ℚ) < 1000 * 60)]
      norm_num
    simp only [reapSessions, List.mem_filter]
    rw [hq (now - s.lastActivity)]
  · rfl

/-- **C7** counterexample: `clearHistory` does *not* update `lastActivity` —
clearing a session whose `lastActivity` is 100 leaves it at 100, whatever the
current time is (the route never reads the clock). -/
theorem C7_counterexample :
    clearHandler [("s", demoSession)] "s" =
      (true, [("s", { demoSession with history := [] })]) ∧
    ({ demoSession with history := [] }).lastActivity = 100 ∧
    demoSession.lastActivity = 100 := by decide

/-- **C7** as amended: `clearHistory` resets the history to empty and leaves
`systemPrompt`, `temperature`, `createdAt` *and `lastActivity`* untouched
(the route does not refresh activity); a subsequent get-history returns
`messageCount = 0` with the prior `systemPrompt` and `temperature`. -/
theorem C7_clear_resets_history_only (st : Store) (sid : SessionId) (s : Session)
    (hs : storeGet? st sid = some s) :
    clearHandler st sid = (true, storeSet st sid { s with history := [] }) ∧
    ∃ v, (historyHandler (clearHandler st sid).2 sid).1 = some v ∧
      v.messageCount = 0 ∧ v.systemPrompt = s.systemPrompt ∧
      v.temperature = s.temperature ∧ v.lastActivity = s.lastActivity := by
  have h1 : clearHandler st sid = (true, storeSet st sid { s with history := [] }) := by
    unfold clearHandler
    rw [hs]
  refine ⟨h1, ?_⟩
  rw [h1]
  unfold historyHandler
  rw [storeGet?_set_self]
  exact ⟨_, rfl, rfl, rfl, rfl, rfl⟩

/-- **C7** witness: the amended statement at the concrete one-turn session. -/
theorem C7_clear_resets_history_only_witness :
    clearHandler [("s", demoSession)] "s" =
      (true, storeSet [("s", demoSession)] "s" { demoSession with history := [] }) ∧
    ∃ v, (historyHandler (clearHandler [("s", demoSession)] "s").2 "s").1 = some v ∧
      v.messageCount = 0 ∧ v.systemPrompt = demoSession.systemPrompt ∧
      v.temperature = demoSession.temperature ∧
      v.lastActivity = demoSession.lastActivity :=
  C7_clear_resets_history_only [("s", demoSession)] "s" demoSession rfl

/-- **C9** counterexample: a successful get-history lookup does *not* update
`lastActivity` — the route leaves the store (hence the session's
`lastActivity`, still 100) untouched, whatever the current time is. -/
theorem C9_counterexample :
    (historyHandler [("s", demoSession)] "s").2 = [("s", demoSession)] ∧
    ∃ v, (historyHandler [("s", demoSession)] "s").1 = some v ∧
      v.lastActivity = 100 :=
  ⟨rfl, ⟨_, rfl, by decide⟩⟩

/-- **C9** as amended: the get-history route is a pure read and never mutates
the store; `lastActivity` is refreshed only by the turn pipeline's internal
lookup `getMessageHistory`. -/
theorem C9_read_access_activity (st : Store) (sid : SessionId) (now : ℚ) :
    (historyHandler st sid).2 = st ∧
    (∀ s, storeGet? st sid = some s →
      storeGet? (getMessageHistory now st sid).1 sid =
        some { s with lastActivity := now }) := by
  constructor
  · unfold historyHandler
    split <;> rfl
  · intro s hs
    rw [getMessageHistory_present now st sid s hs]
    exact storeGet?_set_self st sid _

/-- **C9** witness: the amended statement at the concrete session, with the
turn-pipeline lookup at time 200 refreshing `lastActivity` to 200. -/
theorem C9_read_access_activity_witness :
    (historyHandler [("s", demoSession)] "s").2 = [("s", demoSession)] ∧
    storeGet? (getMessageHistory 200 [("s", demoSession)] "s").1 "s" =
      some { demoSession with lastActivity := 200 } :=
  ⟨(C9_read_access_activity [("s", demoSession)] "s" 200).1,
    (C9_read_access_activity [("s", demoSession)] "s" 200).2 demoSession rfl⟩

/-- **C10** (confirmed): `getMessageHistory` on an id absent from the store
does not fail but silently inserts a fresh session with empty history, the
default system prompt, temperature 0.5 and `createdAt = lastActivity = now`;
consequently a chain invocation on a session deleted after the route's
existence check resurrects it with those defaults instead of reporting
`NotFound`. -/
theorem C10_getMessageHistory_resurrects (now : ℚ) (st : Store)
    (sid : SessionId) (hs : storeGet? st sid = none) :
    getMessageHistory now st sid = (storeSet st sid (freshSession now), []) ∧
    (freshSession now).history = [] ∧
    (freshSession now).systemPrompt = defaultSystemPrompt ∧
    (freshSession now).temperature = 0.5 ∧
    (freshSession now).createdAt = now ∧
    (freshSession now).lastActivity = now ∧
    (∀ backend input sp temp, ∃ s',
      storeGet? (chainInvoke backend now st sid input sp temp).2 sid = some s' ∧
      s'.systemPrompt = defaultSystemPrompt ∧ s'.temperature = 0.5 ∧
      s'.createdAt = now) := by
  refine ⟨getMessageHistory_absent now st sid hs, rfl, rfl, defaultTemperature_eq,
    rfl, rfl, ?_⟩
  intro backend input sp temp
  unfold chainInvoke
  rw [getMessageHistory_absent now st sid hs]
  cases hbk : backend (assemble sp ([] : List Message) input) temp with
  | error e =>
      exact ⟨freshSession now, storeGet?_set_self st sid _, rfl,
        defaultTemperature_eq, rfl⟩
  | ok reply =>
      dsimp only
      have happ : appendPair (storeSet st sid (freshSession now)) sid input reply =
          storeSet st sid
            { freshSession now with
                history := (freshSession now).history ++
                  [Message.mk "human" input, Message.mk "ai" reply] } := by
        unfold appendPair
        rw [storeGet?_set_self]
        dsimp only
        rw [storeSet_storeSet]
      rw [happ]
      exact ⟨_, storeGet?_set_self st sid _, rfl, defaultTemperature_eq, rfl⟩

/-- **C10** witness: on the empty store, the lookup at time 5 inserts the
default session, and a chain invocation on the emptied store resurrects the
session with the default configuration. -/
theorem C10_getMessageHistory_resurrects_witness :
    getMessageHistory 5 ([] : Store) "s" =
      (storeSet ([] : Store) "s" (freshSession 5), []) ∧
    ∃ s', storeGet? (chainInvoke (fun _ _ => Except.ok "hi") 5 ([] : Store)
        "s" "oi" "p" 1).2 "s" = some s' ∧
      s'.systemPrompt = defaultSystemPrompt ∧ s'.temperature = 0.5 ∧
      s'.createdAt = 5 :=
  ⟨(C10_getMessageHistory_resurrects 5 ([] : Store) "s" rfl).1,
    (C10_getMessageHistory_resurrects 5 ([] : Store) "s" rfl).2.2.2.2.2.2
      (fun _ _ => Except.ok "hi") "oi" "p" 1⟩

/-- **C1** counterexample: a turn request carrying a (valid) temperature
override 1.5 on a session at the default 0.5 whose backend call fails still
reports `BackendError`, but the session's temperature has changed to 1.5 —
the overrides are applied before the backend call and are not rolled back, so
the session state is *not* exactly as it was before the turn. -/
theorem C1_counterexample :
    (chatHandler (fun _ _ => Except.error ()) 3 [("s", freshSession 0)]
        ⟨some "s", some "oi", some (JValue.jnum (mkRat 3 2)), none⟩).1 =
      ChatResult.backendError ∧
    (storeGet? (chatHandler (fun _ _ => Except.error ()) 3 [("s", freshSession 0)]
        ⟨some "s", some "oi", some (JValue.jnum (mkRat 3 2)), none⟩).2 "s").map
      Session.temperature = some (mkRat 3 2) ∧
    (freshSession 0).temperature = mkRat 1 2 ∧
    ¬ (mkRat 3 2 : ℚ) = mkRat 1 2 := by decide

/-- **C1** as amended: when the backend call of a turn on an existing session
fails, the turn reports `BackendError` and the session's history and
`createdAt` are exactly as before (no partial append); its temperature and
systemPrompt are also unchanged whenever the request carried no corresponding
override — but overrides supplied with the failing request persist, and
`lastActivity` is refreshed. -/
theorem C1_backend_failure_state (backend : Backend) (now : ℚ) (st : Store)
    (sid m : String) (tv spv : Option JValue) (s : Session)
    (hs : storeGet? st sid = some s)
    (herr : (chatHandler backend now st ⟨some sid, some m, tv, spv⟩).1 =
      ChatResult.backendError) :
    ∃ s', storeGet? (chatHandler backend now st ⟨some sid, some m, tv, spv⟩).2 sid =
        some s' ∧
      s'.history = s.history ∧ s'.createdAt = s.createdAt ∧
      (tv = none → s'.temperature = s.temperature) ∧
      (spv = none → s'.systemPrompt = s.systemPrompt) := by
  rw [chatHandler_error_inv backend now st sid m tv spv s hs herr]
  refine ⟨_, storeGet?_set_self st sid _, ?_, ?_, ?_, ?_⟩
  · simp
  · simp
  · rintro rfl; simp
  · rintro rfl; simp

/-- **C1** witness: the amended statement at a concrete failing turn with no
overrides. -/
theorem C1_backend_failure_state_witness :
    ∃ s', storeGet? (chatHandler (fun _ _ => Except.error ()) 3
        [("s", freshSession 0)] ⟨some "s", some "oi", none, none⟩).2 "s" = some s' ∧
      s'.history = (freshSession 0).history ∧
      s'.createdAt = (freshSession 0).createdAt ∧
      ((none : Option JValue) = none → s'.temperature = (freshSession 0).temperature) ∧
      ((none : Option JValue) = none → s'.systemPrompt = (freshSession 0).systemPrompt) :=
  C1_backend_failure_state (fun _ _ => Except.error ()) 3 [("s", freshSession 0)]
    "s" "oi" none none (freshSession 0) rfl (by decide)

/-- **C2** (confirmed): starting from an empty history, after any sequence of
turns that all produced replies, the session's history is exactly the
user/assistant pairs of those turns in order — length `2*N`, alternating
user (`"human"`) / assistant (`"ai"`) starting with the user message. -/
theorem C2_successful_turns_history (backend : Backend) (now : ℚ) (st0 : Store)
    (sid : SessionId) (s0 : Session) (msgs : List String)
    (hs : storeGet? st0 sid = some s0) (hh : s0.history = [])
    (hok : ∀ r ∈ (runTurns backend now sid st0 msgs).2, ∃ c, r = ChatResult.reply c) :
    ∃ sF replies, storeGet? (runTurns backend now sid st0 msgs).1 sid = some sF ∧
      replies.length = msgs.length ∧
      sF.history = pairsToHistory (msgs.zip replies) ∧
      sF.history.length = 2 * msgs.length ∧
      alternatesUserAssistant sF.history = true := by
  obtain ⟨replies, hlen, sF, hgF, hhist⟩ :=
    runTurns_reply_history backend now sid msgs st0 s0 hs hok
  rw [hh, List.nil_append] at hhist
  refine ⟨sF, replies, hgF, hlen, hhist, ?_, ?_⟩
  · rw [hhist, pairsToHistory_length, List.length_zip, hlen, min_self]
  · rw [hhist]
    exact alternates_pairsToHistory _

/-- **C2** witness: two successful turns on a fresh session produce the four
expected messages. -/
theorem C2_successful_turns_history_witness :
    ∃ sF replies,
      storeGet? (runTurns (fun _ _ => Except.ok "hi") 1 "s"
        [("s", freshSession 0)] ["olá", "tudo bem"]).1 "s" = some sF ∧
      replies.length = (["olá", "tudo bem"] : List String).length ∧
      sF.history = pairsToHistory ((["olá", "tudo bem"] : List String).zip replies) ∧
      sF.history.length = 2 * (["olá", "tudo bem"] : List String).length ∧
      alternatesUserAssistant sF.history = true :=
  C2_successful_turns_history (fun _ _ => Except.ok "hi") 1 [("s", freshSession 0)]
    "s" (freshSession 0) ["olá", "tudo bem"] rfl rfl
    (by
      intro r hr
      rw [show (runTurns (fun _ _ => Except.ok "hi") 1 "s"
          [("s", freshSession 0)] ["olá", "tudo bem"]).2 =
          [ChatResult.reply "hi", ChatResult.reply "hi"] from by decide] at hr
      have hr' : r = ChatResult.reply "hi" := by
        simp only [List.mem_cons, List.not_mem_nil, or_false] at hr
        rcases hr with h | h <;> exact h
      exact ⟨"hi", hr'⟩)

/-- **C3** (confirmed): a config update or a turn request carrying a
temperature that is not a number in `[0, 2]` is rejected with
`InvalidArgument`; the session's stored temperature is unchanged (the chat
route leaves the whole store untouched). -/
theorem C3_invalid_temperature_rejected (st : Store) (sid : SessionId)
    (s : Session) (spv : Option JValue) (tv : JValue) (backend : Backend)
    (now : ℚ) (sidv mv : Option String)
    (hs : storeGet? st sid = some s) (htv : tempOk tv = false) :
    (∃ e, (configHandler st sid spv (some tv)).1 = ConfigResult.invalidArg e) ∧
    (∀ s', storeGet? (configHandler st sid spv (some tv)).2 sid = some s' →
      s'.temperature = s.temperature) ∧
    (∃ e, (chatHandler backend now st ⟨sidv, mv, some tv, spv⟩).1 =
      ChatResult.invalidArg e) ∧
    (chatHandler backend now st ⟨sidv, mv, some tv, spv⟩).2 = st := by
  have hchat : chatHandler backend now st ⟨sidv, mv, some tv, spv⟩ =
      (ChatResult.invalidArg
        (if badSystemPrompt spv then spErrMsg else tempErrMsg), st) := by
    by_cases hb : badSystemPrompt spv
    · simp [chatHandler, hb]
    · simp [chatHandler, hb, badTemperature, htv]
  refine ⟨?_, ?_, ⟨_, by rw [hchat]⟩, by rw [hchat]⟩
  · rcases spv with _ | v
    · exact ⟨tempErrMsg, by rw [configHandler_none_badtemp st sid s tv hs htv]⟩
    · rcases v with q | sp | b | _
      · exact ⟨spErrMsg,
          by rw [configHandler_nonstring st sid s (JValue.jnum q) (some tv) hs rfl]⟩
      · exact ⟨tempErrMsg, by rw [configHandler_jstr_badtemp st sid s sp tv hs htv]⟩
      · exact ⟨spErrMsg,
          by rw [configHandler_nonstring st sid s (JValue.jbool b) (some tv) hs rfl]⟩
      · exact ⟨spErrMsg,
          by rw [configHandler_nonstring st sid s JValue.jnull (some tv) hs rfl]⟩
  · intro s' hs'
    rcases spv with _ | v
    · rw [configHandler_none_badtemp st sid s tv hs htv] at hs'
      dsimp only at hs'
      rw [hs] at hs'
      obtain rfl : s = s' := Option.some.inj hs'
      rfl
    · rcases v with q | sp | b | _
      · rw [configHandler_nonstring st sid s (JValue.jnum q) (some tv) hs rfl] at hs'
        dsimp only at hs'
        rw [hs] at hs'
        obtain rfl : s = s' := Option.some.inj hs'
        rfl
      · rw [configHandler_jstr_badtemp st sid s sp tv hs htv] at hs'
        dsimp only at hs'
        rw [storeGet?_set_self] at hs'
        obtain rfl : ({ s with systemPrompt := sp } : Session) = s' :=
          Option.some.inj hs'
        rfl
      · rw [configHandler_nonstring st sid s (JValue.jbool b) (some tv) hs rfl] at hs'
        dsimp only at hs'
        rw [hs] at hs'
        obtain rfl : s = s' := Option.some.inj hs'
        rfl
      · rw [configHandler_nonstring st sid s JValue.jnull (some tv) hs rfl] at hs'
        dsimp only at hs'
        rw [hs] at hs'
        obtain rfl : s = s' := Option.some.inj hs'
        rfl

/-- **C3** witness: a config update with temperature `-1` and a turn request
with temperature `-1` on the default session, both rejected with the store's
temperature (trivially) unchanged. -/
theorem C3_invalid_temperature_rejected_witness :
    (∃ e, (configHandler [("s", freshSession 0)] "s" none
      (some (JValue.jnum (-1)))).1 = ConfigResult.invalidArg e) ∧
    (freshSession 0).temperature = (freshSession 0).temperature ∧
    (∃ e, (chatHandler (fun _ _ => Except.ok "hi") 0 [("s", freshSession 0)]
      ⟨some "s", some "oi", some (JValue.jnum (-1)), none⟩).1 =
        ChatResult.invalidArg e) ∧
    (chatHandler (fun _ _ => Except.ok "hi") 0 [("s", freshSession 0)]
      ⟨some "s", some "oi", some (JValue.jnum (-1)), none⟩).2 =
        [("s", freshSession 0)] := by
  have T := C3_invalid_temperature_rejected [("s", freshSession 0)] "s"
    (freshSession 0) none (JValue.jnum (-1)) (fun _ _ => Except.ok "hi") 0
    (some "s") (some "oi") rfl (by decide)
  exact ⟨T.1, T.2.1 (freshSession 0) (by decide), T.2.2.1, T.2.2.2⟩

/-- **C4** counterexample: a config update may set the systemPrompt to the
*empty* string — the config route stores the supplied string verbatim with no
default fallback, so the "always non-empty" invariant fails after
`update-config(systemPrompt = "")`. -/
theorem C4_counterexample :
    (configHandler [("s", freshSession 0)] "s" (some (JValue.jstr "")) none).1 =
      ConfigResult.updated "" defaultTemperature ∧
    (storeGet? (configHandler [("s", freshSession 0)] "s"
        (some (JValue.jstr "")) none).2 "s").map Session.systemPrompt =
      some "" := by decide

/-- **C4** as amended: session creation and turn execution do keep the
systemPrompt non-empty (a turn's empty or whitespace override falls back to
the built-in default), but the config route stores the supplied string
verbatim — including the empty string. -/
theorem C4_systemPrompt_nonempty (now : ℚ) :
    (freshSession now).systemPrompt ≠ "" ∧
    (∀ backend st sidv mv tv spv sid s s',
      storeGet? st sid = some s → s.systemPrompt ≠ "" →
      storeGet? (chatHandler backend now st ⟨sidv, mv, tv, spv⟩).2 sid = some s' →
      s'.systemPrompt ≠ "") ∧
    (∀ st sid s sp, storeGet? st sid = some s →
      configHandler st sid (some (JValue.jstr sp)) none =
        (ConfigResult.updated sp s.temperature,
          storeSet st sid { s with systemPrompt := sp })) := by
  refine ⟨defaultSystemPrompt_ne, ?_,
    fun st sid s sp hs => configHandler_jstr_none st sid s sp hs⟩
  intro backend st sidv mv tv spv sid s s' hs hne hs'
  rcases chatHandler_cases backend now st sidv mv tv spv with
    ⟨hst, _⟩ | ⟨sid₁, m₁, s₁, rfl, rfl, hsid₁, hm₁, hsp₁, ht₁, hget₁⟩
  · rw [hst, hs] at hs'
    obtain rfl : s = s' := Option.some.inj hs'
    exact hne
  · rw [chatHandler_found backend now st sid₁ m₁ tv spv s₁ hsp₁ ht₁ hsid₁ hm₁
      hget₁] at hs'
    cases hbk : backend (assemble (applySP spv s₁).systemPrompt s₁.history m₁)
        (applyTemp tv (applySP spv s₁)).temperature with
    | ok r =>
        rw [hbk] at hs'
        dsimp only at hs'
        by_cases heq : sid = sid₁
        · subst heq
          obtain rfl : s = s₁ := by rw [hs] at hget₁; exact Option.some.inj hget₁
          rw [storeGet?_set_self] at hs'
          have hrec := Option.some.inj hs'
          rw [← hrec]
          simpa using applySP_systemPrompt_ne spv s hne
        · rw [storeGet?_set_ne st sid₁ sid _ heq, hs] at hs'
          obtain rfl : s = s' := Option.some.inj hs'
          exact hne
    | error e =>
        rw [hbk] at hs'
        dsimp only at hs'
        by_cases heq : sid = sid₁
        · subst heq
          obtain rfl : s = s₁ := by rw [hs] at hget₁; exact Option.some.inj hget₁
          rw [storeGet?_set_self] at hs'
          have hrec := Option.some.inj hs'
          rw [← hrec]
          simpa using applySP_systemPrompt_ne spv s hne
        · rw [storeGet?_set_ne st sid₁ sid _ heq, hs] at hs'
          obtain rfl : s = s' := Option.some.inj hs'
          exact hne

/-- **C4** witness: a fresh session has a non-empty prompt; a turn carrying a
whitespace-only systemPrompt override keeps the default (non-empty) prompt;
the config route stores `"Z"` verbatim. -/
theorem C4_systemPrompt_nonempty_witness :
    (freshSession 0).systemPrompt ≠ "" ∧
    ({ freshSession 0 with
        history := [Message.mk "human" "oi", Message.mk "ai" "hi"] } :
      Session).systemPrompt ≠ "" ∧
    configHandler [("s", freshSession 0)] "s" (some (JValue.jstr "Z")) none =
      (ConfigResult.updated "Z" (freshSession 0).temperature,
        storeSet [("s", freshSession 0)] "s"
          { freshSession 0 with systemPrompt := "Z" }) :=
  ⟨(C4_systemPrompt_nonempty 0).1,
    (C4_systemPrompt_nonempty 0).2.1 (fun _ _ => Except.ok "hi")
      [("s", freshSession 0)] (some "s") (some "oi") none
      (some (JValue.jstr "   ")) "s" (freshSession 0) _ rfl (by decide) (by decide),
    (C4_systemPrompt_nonempty 0).2.2 [("s", freshSession 0)] "s"
      (freshSession 0) "Z" rfl⟩

/-- **C5** counterexample: a config update carrying a valid systemPrompt and
an invalid temperature is rejected with `InvalidArgument`, yet the session's
systemPrompt has already been changed — validation is *not* fail-fast across
fields. -/
theorem C5_counterexample :
    (configHandler [("s", freshSession 0)] "s" (some (JValue.jstr "X"))
        (some (JValue.jnum 5))).1 = ConfigResult.invalidArg tempErrMsg ∧
    (storeGet? (configHandler [("s", freshSession 0)] "s" (some (JValue.jstr "X"))
        (some (JValue.jnum 5))).2 "s").map Session.systemPrompt = some "X" ∧
    (freshSession 0).systemPrompt ≠ "X" := by decide

/-- **C5** as amended: the config route validates and mutates field by field
— the systemPrompt is validated and stored before the temperature is even
examined, so a request with a string systemPrompt and an invalid temperature
returns `InvalidArgument` with the systemPrompt mutation already applied. -/
theorem C5_validation_not_failfast (st : Store) (sid : SessionId) (s : Session)
    (sp : String) (tv : JValue)
    (hs : storeGet? st sid = some s) (htv : tempOk tv = false) :
    configHandler st sid (some (JValue.jstr sp)) (some tv) =
      (ConfigResult.invalidArg tempErrMsg,
        storeSet st sid { s with systemPrompt := sp }) :=
  configHandler_jstr_badtemp st sid s sp tv hs htv

/-- **C5** witness: the amended statement at a concrete session, systemPrompt
`"Y"` and non-numeric temperature `"hot"`. -/
theorem C5_validation_not_failfast_witness :
    configHandler [("s", freshSession 0)] "s" (some (JValue.jstr "Y"))
        (some (JValue.jstr "hot")) =
      (ConfigResult.invalidArg tempErrMsg,
        storeSet [("s", freshSession 0)] "s"
          { freshSession 0 with systemPrompt := "Y" }) :=
  C5_validation_not_failfast [("s", freshSession 0)] "s" (freshSession 0)
    "Y" (JValue.jstr "hot") rfl (by decide)

/-- **C8** (confirmed): the assembled prompt is
`[system: systemPrompt] ++ history ++ [user: newUserMessage]` — the system
instruction first, the history verbatim in order — and a turn consults the
backend only at that assembled prompt built from the session's systemPrompt
and full stored history (assembly itself is a pure function). -/
theorem C8_assemble_prompt (sp : String) (hist : List Message) (input : String)
    (backend backend' : Backend) (now : ℚ) (st : Store) (sid m : String)
    (s : Session) (hs : storeGet? st sid = some s) (hsid : sid ≠ "")
    (hm : jsTrim m ≠ "")
    (hagree : ∀ t, backend (assemble s.systemPrompt s.history m) t =
      backend' (assemble s.systemPrompt s.history m) t) :
    assemble sp hist input =
      Message.mk "system" sp :: (hist ++ [Message.mk "human" input]) ∧
    chatHandler backend now st ⟨some sid, some m, none, none⟩ =
      chatHandler backend' now st ⟨some sid, some m, none, none⟩ := by
  refine ⟨rfl, ?_⟩
  rw [chatHandler_found backend now st sid m none none s rfl rfl hsid hm hs,
    chatHandler_found backend' now st sid m none none s rfl rfl hsid hm hs]
  simp only [applySP_none, applyTemp_none, hagree]

/-- **C8** witness: concrete assembly equation plus backend-extensionality of
a concrete turn. -/
theorem C8_assemble_prompt_witness :
    assemble "x" ([] : List Message) "i" =
      Message.mk "system" "x" :: (([] : List Message) ++ [Message.mk "human" "i"]) ∧
    chatHandler (fun _ _ => Except.ok "hi") 0 [("s", freshSession 0)]
        ⟨some "s", some "oi", none, none⟩ =
      chatHandler (fun _ _ => Except.ok "hi") 0 [("s", freshSession 0)]
        ⟨some "s", some "oi", none, none⟩ :=
  C8_assemble_prompt "x" [] "i" (fun _ _ => Except.ok "hi")
    (fun _ _ => Except.ok "hi") 0 [("s", freshSession 0)] "s" "oi"
    (freshSession 0) rfl (by decide) (by decide) (fun _ => rfl)
